import Mathlib

/-!
Verification development for the fuzzy-supplier-finder repository.

The TypeScript sources are shallowly embedded over a JSON-like value type
`JsVal`.  JavaScript property access on `null`/`undefined` throws a
`TypeError`; this effect is modelled with `Except JsErr`.  Network calls
(`fetch` followed by `response.json()`) are modelled by an oracle
`String → Except JsErr JsVal` mapping a request URL to the decoded JSON
body (or to a thrown transport/decode error).
-/

namespace FuzzySupplier

/-- JavaScript runtime errors that the embedded code can raise.  The embedded
fragments only ever raise `TypeError` (property access or method call on an
unsuitable value); transport failures of the oracle are also folded into this
type since the code never inspects the error value. -/
inductive JsErr where
  | typeError
deriving Repr, DecidableEq

/-- JSON-like JavaScript values.  `undefined` is JavaScript `undefined` (absent
property), distinct from JSON `null`.  Numbers are integers: the embedded code
only ever meets integral numbers (array lengths, page sizes). -/
inductive JsVal where
  | null
  | undefined
  | bool (b : Bool)
  | num (n : Int)
  | str (s : String)
  | arr (elems : List JsVal)
  | obj (fields : List (String × JsVal))
deriving Repr

/-- JavaScript truthiness: `null`, `undefined`, `false`, `0` and `""` are
falsy; every object and array is truthy. -/
def JsVal.truthy : JsVal → Bool
  | .null => false
  | .undefined => false
  | .bool b => b
  | .num n => n != 0
  | .str s => s != ""
  | .arr _ => true
  | .obj _ => true

/-- String coercion of a JavaScript value placed inside an `Array.join`
result: `null` and `undefined` become the empty string.  Nested arrays do not
occur in the payloads the embedded code joins, so they are not recursed
into. -/
def jsElemString : JsVal → String
  | .null => ""
  | .undefined => ""
  | .bool b => cond b "true" "false"
  | .num n => toString n
  | .str s => s
  | .arr _ => ""
  | .obj _ => "[object Object]"

/-- JavaScript `String(v)` coercion, used by template literals and by `fetch`
on a non-string URL argument.  Array elements are coerced shallowly (nested
arrays do not occur in the embedded code's data). -/
def jsString : JsVal → String
  | .null => "null"
  | .undefined => "undefined"
  | .bool b => cond b "true" "false"
  | .num n => toString n
  | .str s => s
  | .arr xs => String.intercalate "," (xs.map jsElemString)
  | .obj _ => "[object Object]"

/-- Pure property read `v[k]` for a receiver already known not to be
`null`/`undefined` (JavaScript then never throws; missing keys give
`undefined`).  Arrays expose their `length`. -/
def jsMember (v : JsVal) (k : String) : JsVal :=
  match v with
  | .obj fs => (fs.lookup k).getD .undefined
  | .arr xs => if k == "length" then .num xs.length else .undefined
  | _ => .undefined

/-- Optional-chaining property read `v?.k`: a nullish receiver short-circuits
to `undefined` instead of throwing. -/
def jsMemberOpt (v : JsVal) (k : String) : JsVal :=
  match v with
  | .null => .undefined
  | .undefined => .undefined
  | v => jsMember v k

/-- Plain property read `v.k`: throws `TypeError` when the receiver is
`null`/`undefined`, otherwise behaves like `jsMember`. -/
def JsVal.getProp (v : JsVal) (k : String) : Except JsErr JsVal :=
  match v with
  | .null => .error .typeError
  | .undefined => .error .typeError
  | v => .ok (jsMember v k)

/-- Index read `v[i]` for a non-nullish receiver (all call sites guard the
receiver's truthiness first). -/
def jsIndex (v : JsVal) (i : Nat) : JsVal :=
  match v with
  | .arr xs => (xs.get? i).getD .undefined
  | _ => .undefined

/-- JavaScript strict equality of a value against a string literal, as used in
`result.data.type === "reporting-exceptions"`. -/
def JsVal.isStr (v : JsVal) (s : String) : Bool :=
  match v with
  | .str t => t == s
  | _ => false

/-- The expression `v?.join(sep)` applied to a possibly-absent `addressLines`
value: nullish short-circuits to `undefined`; a non-array receiver has no
`join` method and throws. -/
def jsJoinOpt (v : JsVal) (sep : String) : Except JsErr JsVal :=
  match v with
  | .null => .ok .undefined
  | .undefined => .ok .undefined
  | .arr xs => .ok (.str (String.intercalate sep (xs.map jsElemString)))
  | _ => .error .typeError

/-- The pattern `[...parts].filter(Boolean).join(', ')` used by every address
formatter in the repository: drop falsy components, coerce the survivors to
strings and join with a comma-space. -/
def formatParts (parts : List JsVal) : String :=
  String.intercalate ", " ((parts.filter JsVal.truthy).map jsString)

/-- The expression `v.includes(needle)` for a string needle: substring test on
strings, strict-equality element test on arrays, `TypeError` otherwise
(including a nullish receiver). -/
def jsIncludes (v : JsVal) (needle : String) : Except JsErr Bool :=
  match v with
  | .str s => .ok (needle == "" || (s.splitOn needle).length > 1)
  | .arr xs => .ok (xs.any fun e => match e with | .str t => t == needle | _ => false)
  | _ => .error .typeError

/-- The `> 0` comparison in `data.data.length > 0`: only an actual number
compares greater than zero (`undefined > 0` is false in JavaScript). -/
def jsGtZero : JsVal → Bool
  | .num n => 0 < n
  | _ => false

/-! ## Data model of `companyUtils.ts` (`parseCompanyFromGLEIF`) -/

/-- The per-parent link bundle extracted by `parseCompanyFromGLEIF` from
`data.relationships["direct-parent"].links` (and the ultimate-parent
analogue). -/
structure ParentLinks where
  relationshipRecord : JsVal
  leiRecord : JsVal
  reportingException : JsVal
deriving Repr

/-- The children link bundle extracted from
`data.relationships["direct-children"].links`. -/
structure ChildrenLinks where
  relationshipRecords : JsVal
  related : JsVal
deriving Repr

/-- The `relationships` record assembled by `parseCompanyFromGLEIF`. -/
structure Relationships where
  directParent : Option ParentLinks
  ultimateParent : Option ParentLinks
  directChildren : Option ChildrenLinks
deriving Repr

/-- The company object returned by `parseCompanyFromGLEIF`
(`src/src/utils/companyUtils.ts`). -/
structure Company where
  name : JsVal
  lei : JsVal
  address : String
  jurisdiction : JsVal
  entityStatus : JsVal
  registrationStatus : JsVal
  parentLei : JsVal
  legalForm : Option String
  legalFormId : JsVal
  registrationAuthority : JsVal
  nextRenewalDate : JsVal
  initialRegistrationDate : JsVal
  lastUpdateDate : JsVal
  entityCategory : JsVal
  hasDirectParent : Bool
  hasUltimateParent : Bool
  hasChildren : Bool
  relationships : Relationships
  bic : JsVal
  headquartersAddress : Option String
deriving Repr

/-- Legal-address formatting of `parseCompanyFromGLEIF` (companyUtils.ts lines
70-78): components in the order address lines, city, region, country, postal
code.  The first access `legalAddress.addressLines` throws when `legalAddress`
is nullish, exactly as in the source. -/
def formatLegalAddressUtils (legalAddress : JsVal) : Except JsErr String :=
  match legalAddress.getProp "addressLines" with
  | .error e => .error e
  | .ok addressLines =>
    match jsJoinOpt addressLines ", " with
    | .error e => .error e
    | .ok linesPart =>
      .ok (formatParts [linesPart, jsMember legalAddress "city",
        jsMember legalAddress "region", jsMember legalAddress "country",
        jsMember legalAddress "postalCode"])

/-- Headquarters-address formatting of `parseCompanyFromGLEIF` (lines
153-159); the receiver is truthy-guarded by the caller so all accesses are
total. -/
def formatHeadquartersUtils (hq : JsVal) : Except JsErr String :=
  match (jsMember hq "addressLines") with
  | v =>
    match jsJoinOpt v ", " with
    | .error e => .error e
    | .ok linesPart =>
      .ok (formatParts [linesPart, jsMember hq "city", jsMember hq "region",
        jsMember hq "country", jsMember hq "postalCode"])

/-- Extraction of one parent link bundle: the source pattern
`data.relationships["direct-parent"]?.links` followed by reads of the three
sub-links (companyUtils.ts lines 85-101).  `rels` is `data.relationships`,
already known non-nullish because it was truthy-tested. -/
def extractParentLinks (rels : JsVal) (key : String) : Option ParentLinks :=
  let links := jsMemberOpt (jsMember rels key) "links"
  if links.truthy then
    some { relationshipRecord := jsMember links "relationship-record"
           leiRecord := jsMember links "lei-record"
           reportingException := jsMember links "reporting-exception" }
  else none

/-- Extraction of the children link bundle (companyUtils.ts lines 104-109). -/
def extractChildrenLinks (rels : JsVal) : Option ChildrenLinks :=
  let links := jsMemberOpt (jsMember rels "direct-children") "links"
  if links.truthy then
    some { relationshipRecords := jsMember links "relationship-records"
           related := jsMember links "related" }
  else none

/-- The legal-form template string
`entity.legalForm && entity.legalForm.id ? ... : undefined`
(companyUtils.ts lines 126-128); `entity` is non-nullish at this point. -/
def legalFormStringOf (entity : JsVal) : Option String :=
  let lf := jsMember entity "legalForm"
  if lf.truthy && (jsMember lf "id").truthy then
    some (jsString (jsMember lf "id") ++
      (if (jsMember lf "other").truthy then " - " ++ jsString (jsMember lf "other") else ""))
  else none

/-- `parseCompanyFromGLEIF` (companyUtils.ts lines 62-161).  Returns `.ok
none` for the JavaScript `null` result, and `.error _` when the original
function would throw.  Property reads that can throw in the source
(`entity.legalAddress`, `legalAddress.addressLines`, `entity.legalName.name`,
`attributes.registration.status`) are sequenced in source evaluation order;
reads whose receiver is already known non-nullish use the total `jsMember`. -/
def parseCompanyFromGLEIF (data : JsVal) : Except JsErr (Option Company) :=
  if !data.truthy || !(jsMember data "attributes").truthy then .ok none else
  let attributes := jsMember data "attributes"
  let entity := jsMember attributes "entity"
  match entity.getProp "legalAddress" with
  | .error e => .error e
  | .ok legalAddress =>
    match formatLegalAddressUtils legalAddress with
    | .error e => .error e
    | .ok formattedAddress =>
      let rels := jsMember data "relationships"
      let relationships : Relationships :=
        if rels.truthy then
          { directParent := extractParentLinks rels "direct-parent"
            ultimateParent := extractParentLinks rels "ultimate-parent"
            directChildren := extractChildrenLinks rels }
        else { directParent := none, ultimateParent := none, directChildren := none }
      let hasDirectParent :=
        match relationships.directParent with
        | some p => p.leiRecord.truthy || p.reportingException.truthy
        | none => false
      let hasUltimateParent :=
        match relationships.ultimateParent with
        | some p => p.leiRecord.truthy || p.reportingException.truthy
        | none => false
      let hasChildren :=
        match relationships.directChildren with
        | some c => c.related.truthy
        | none => false
      match (jsMember entity "legalName").getProp "name" with
      | .error e => .error e
      | .ok legalNameName =>
        match (jsMember attributes "registration").getProp "status" with
        | .error e => .error e
        | .ok registrationStatus =>
          let registration := jsMember attributes "registration"
          let hqVal := jsMember entity "headquartersAddress"
          match (if hqVal.truthy then (formatHeadquartersUtils hqVal).map some else .ok none) with
          | .error e => .error e
          | .ok headquartersAddress =>
            .ok (some {
              name := legalNameName
              lei := jsMember data "id"
              address := formattedAddress
              jurisdiction := jsMember entity "jurisdiction"
              entityStatus := jsMember entity "status"
              registrationStatus := registrationStatus
              parentLei :=
                (let v := jsMemberOpt (jsMember entity "associatedEntity") "lei"
                 if v.truthy then v else .undefined)
              legalForm := legalFormStringOf entity
              legalFormId := jsMemberOpt (jsMember entity "legalForm") "id"
              registrationAuthority := jsMember registration "managingLou"
              nextRenewalDate := jsMember registration "nextRenewalDate"
              initialRegistrationDate := jsMember registration "initialRegistrationDate"
              lastUpdateDate := jsMember registration "lastUpdateDate"
              entityCategory :=
                (let v := jsMember entity "category"
                 if v.truthy then v else .undefined)
              hasDirectParent := hasDirectParent
              hasUltimateParent := hasUltimateParent
              hasChildren := hasChildren
              relationships := relationships
              bic :=
                (let v := jsMember attributes "bic"
                 if v.truthy then v else .arr [])
              headquartersAddress := headquartersAddress })

/-- The reporting-exception object returned by
`parseReportingExceptionFromGLEIF`. -/
structure RepException where
  lei : JsVal
  category : JsVal
  reason : JsVal
  validFrom : JsVal
  validTo : JsVal
  reference : JsVal
  relationshipType : String
  entityUrl : JsVal
deriving Repr

/-- `parseReportingExceptionFromGLEIF` (companyUtils.ts lines 166-181).  The
call `attributes.category.includes('DIRECT')` throws when `category` is
neither a string nor an array, exactly as in the source. -/
def parseReportingExceptionFromGLEIF (data : JsVal) : Except JsErr (Option RepException) :=
  if !data.truthy || !(jsMember data "attributes").truthy then .ok none else
  let attributes := jsMember data "attributes"
  match jsIncludes (jsMember attributes "category") "DIRECT" with
  | .error e => .error e
  | .ok isDirect =>
    .ok (some {
      lei := jsMember attributes "lei"
      category := jsMember attributes "category"
      reason := jsMember attributes "reason"
      validFrom := jsMember attributes "validFrom"
      validTo := jsMember attributes "validTo"
      reference := jsMember attributes "reference"
      relationshipType := if isDirect then "direct-parent" else "ultimate-parent"
      entityUrl := jsMemberOpt (jsMemberOpt (jsMemberOpt
        (jsMember data "relationships") "lei-record") "links") "related" })

/-! ## Network layer of `companyUtils.ts`

A network oracle `f : String → Except JsErr JsVal` maps a URL to the decoded
JSON body of `await (await fetch(url)).json()`, or to a thrown error. -/

/-- The tagged result of `followRelationshipLink`: the source returns
`{ type: "exception", data: ... }` or `{ type: "lei-record", data: ... }`,
where `data` may be the JavaScript `null` produced by a parser. -/
inductive LinkResult where
  | exception (data : Option RepException)
  | leiRecord (data : Option Company)
deriving Repr

/-- Boolean discriminator: is the link result tagged `"lei-record"` (the
spec's `entity` tag)? -/
def LinkResult.isEntityTagged : Option LinkResult → Bool
  | some (.leiRecord _) => true
  | _ => false

/-- The nested link `result.data.relationships?.["lei-record"]?.links?.related`
inspected by `followRelationshipLink`; `rd` is `result.data`, already
truthy-tested. -/
def nestedLeiRecordLink (rd : JsVal) : JsVal :=
  jsMemberOpt (jsMemberOpt (jsMemberOpt (jsMember rd "relationships") "lei-record") "links") "related"

/-- Body of `followRelationshipLink` (companyUtils.ts lines 186-228) before
its surrounding `try`/`catch`: `.ok none` is the explicit `return null` for an
unhandled response shape, `.error _` a thrown error. -/
def followRelationshipLinkCore (f : String → Except JsErr JsVal) (linkUrl : String) :
    Except JsErr (Option LinkResult) :=
  match f linkUrl with
  | .error e => .error e
  | .ok result =>
    match result.getProp "data" with
    | .error e => .error e
    | .ok rd =>
      if rd.truthy then
        if (jsMember rd "type").isStr "reporting-exceptions" then
          match parseReportingExceptionFromGLEIF rd with
          | .error e => .error e
          | .ok exc => .ok (some (.exception exc))
        else if (nestedLeiRecordLink rd).truthy then
          match f (jsString (nestedLeiRecordLink rd)) with
          | .error e => .error e
          | .ok leiData =>
            match leiData.getProp "data" with
            | .error e => .error e
            | .ok ld =>
              if ld.truthy then
                match parseCompanyFromGLEIF ld with
                | .error e => .error e
                | .ok c => .ok (some (.leiRecord c))
              else .ok none
        else if (jsMember rd "type").isStr "lei-records" then
          match parseCompanyFromGLEIF rd with
          | .error e => .error e
          | .ok c => .ok (some (.leiRecord c))
        else .ok none
      else .ok none

/-- `followRelationshipLink`: the `catch` turns any thrown error into the
`null` result. -/
def followRelationshipLink (f : String → Except JsErr JsVal) (linkUrl : String) :
    Option LinkResult :=
  match followRelationshipLinkCore f linkUrl with
  | .ok r => r
  | .error _ => none

/-- The pair returned by `fetchParentCompany` and
`fetchUltimateParentCompany`. -/
structure ParentResult where
  parentEntity : Option Company
  parentException : Option RepException
deriving Repr

/-- Fallback of the parent fetch: follow the `relationship-record` link
(companyUtils.ts lines 319-329) and fall through to `{null, null}`. -/
def parentFromRelationshipRecord (f : String → Except JsErr JsVal) (links : ParentLinks) :
    Except JsErr ParentResult :=
  if links.relationshipRecord.truthy then
    match followRelationshipLink f (jsString links.relationshipRecord) with
    | some (.leiRecord c) => .ok { parentEntity := c, parentException := none }
    | _ => .ok { parentEntity := none, parentException := none }
  else .ok { parentEntity := none, parentException := none }

/-- Second step of the parent fetch: follow the `reporting-exception` link
(companyUtils.ts lines 306-316), else fall through to the relationship-record
step. -/
def parentFromException (f : String → Except JsErr JsVal) (links : ParentLinks) :
    Except JsErr ParentResult :=
  if links.reportingException.truthy then
    match followRelationshipLink f (jsString links.reportingException) with
    | some (.exception e) => .ok { parentEntity := none, parentException := e }
    | _ => parentFromRelationshipRecord f links
  else parentFromRelationshipRecord f links

/-- Body of `fetchParentCompany` inside its `try` (companyUtils.ts lines
286-329): the direct `lei-record` link is used first when present.  When the
parser returns `null` the source's `console.log(parentEntity.name)` throws,
modelled by the explicit `TypeError`. -/
def fetchParentCompanyCore (f : String → Except JsErr JsVal) (links : ParentLinks) :
    Except JsErr ParentResult :=
  if links.leiRecord.truthy then
    match f (jsString links.leiRecord) with
    | .error e => .error e
    | .ok leiData =>
      match leiData.getProp "data" with
      | .error e => .error e
      | .ok ld =>
        if ld.truthy then
          match parseCompanyFromGLEIF ld with
          | .error e => .error e
          | .ok none => .error .typeError
          | .ok (some c) => .ok { parentEntity := some c, parentException := none }
        else parentFromException f links
  else parentFromException f links

/-- `fetchParentCompany` (companyUtils.ts lines 278-335): guard on
`company.relationships?.directParent`, run the core, and let the `catch`
produce `{null, null}`. -/
def fetchParentCompany (f : String → Except JsErr JsVal) (company : Option Company) :
    ParentResult :=
  match company with
  | none => { parentEntity := none, parentException := none }
  | some c =>
    match c.relationships.directParent with
    | none => { parentEntity := none, parentException := none }
    | some links =>
      match fetchParentCompanyCore f links with
      | .ok r => r
      | .error _ => { parentEntity := none, parentException := none }

/-- `fetchUltimateParentCompany` (companyUtils.ts lines 340-397): the source
body is identical to `fetchParentCompany` apart from reading the
`ultimateParent` descriptor and the log texts, so it reuses the same core. -/
def fetchUltimateParentCompany (f : String → Except JsErr JsVal) (company : Option Company) :
    ParentResult :=
  match company with
  | none => { parentEntity := none, parentException := none }
  | some c =>
    match c.relationships.ultimateParent with
    | none => { parentEntity := none, parentException := none }
    | some links =>
      match fetchParentCompanyCore f links with
      | .ok r => r
      | .error _ => { parentEntity := none, parentException := none }

/-- Default children-listing URL of `fetchDirectChildren` (companyUtils.ts
line 255). -/
def childrenDefaultUrl (lei : JsVal) : String :=
  "https://api.gleif.org/api/v1/lei-records?filter[entity.parent.lei]=" ++ jsString lei ++
    "&page[size]=10"

/-- Loop of `fetchDirectChildren` (companyUtils.ts lines 261-266): each child
is parsed independently; a `null` parse is skipped; a thrown parse error is
caught by the outer `catch`, which returns the children accumulated so far. -/
def childrenLoop (acc : List Company) : List JsVal → List Company
  | [] => acc
  | c :: rest =>
    match parseCompanyFromGLEIF c with
    | .error _ => acc
    | .ok none => childrenLoop acc rest
    | .ok (some p) => childrenLoop (acc ++ [p]) rest

/-- `fetchDirectChildren` (companyUtils.ts lines 251-273): fetch the listing
URL (the provided link when truthy, else the default), iterate over the array
in `data.data`, and degrade to the accumulated list on any error. -/
def fetchDirectChildren (f : String → Except JsErr JsVal) (lei : JsVal)
    (directChildrenUrl : JsVal) : List Company :=
  let url := if directChildrenUrl.truthy then jsString directChildrenUrl
             else childrenDefaultUrl lei
  match (match f url with
         | .error e => (.error e : Except JsErr JsVal)
         | .ok data => data.getProp "data") with
  | .error _ => []
  | .ok (.arr xs) => childrenLoop [] xs
  | .ok _ => []

/-- The aggregate assembled by `fetchCorporateHierarchy` (companyUtils.ts
lines 406-415).  The source object has no partial-failure field beyond
`error`; `loading` is set back to `false` in the `finally` block. -/
structure Hierarchy where
  current : Company
  directParent : Option Company
  directParentException : Option RepException
  ultimateParent : Option Company
  ultimateParentException : Option RepException
  children : List Company
  loading : Bool
  error : Option String
deriving Repr

/-- The children link read in the guard
`company.hasChildren && company.relationships?.directChildren?.related`
(companyUtils.ts line 453). -/
def childLinkOf (c : Company) : JsVal :=
  match c.relationships.directChildren with
  | some cl => cl.related
  | none => .undefined

/-- `fetchCorporateHierarchy` (companyUtils.ts lines 402-471).  Every awaited
helper (`fetchParentCompany`, `fetchUltimateParentCompany`,
`fetchDirectChildren`) catches its own errors and the remaining statements in
the `try` block are throw-free property reads on non-nullish values, so the
outer `catch` is unreachable and `error` is always `null`; `loading` ends
`false` via `finally`. -/
def fetchCorporateHierarchy (f : String → Except JsErr JsVal) (company : Option Company) :
    Option Hierarchy :=
  match company with
  | none => none
  | some c =>
    let dp := if c.hasDirectParent then fetchParentCompany f (some c)
              else { parentEntity := none, parentException := none }
    let up := if c.hasUltimateParent then fetchUltimateParentCompany f (some c)
              else { parentEntity := none, parentException := none }
    let kids := if c.hasChildren && (childLinkOf c).truthy
                then fetchDirectChildren f c.lei (childLinkOf c)
                else []
    some { current := c
           directParent := dp.parentEntity
           directParentException := dp.parentException
           ultimateParent := up.parentEntity
           ultimateParentException := up.parentException
           children := kids
           loading := false
           error := none }

/-! ## `FileUploader.tsx`: batch name matching -/

/-- Legal-address formatting inside `matchSuppliersWithGLEIF`
(FileUploader.tsx lines 182-190): note the component order places
`postalCode` before `country`, unlike `parseCompanyFromGLEIF`. -/
def formatLegalAddressUploader (legalAddress : JsVal) : Except JsErr String :=
  match legalAddress.getProp "addressLines" with
  | .error e => .error e
  | .ok addressLines =>
    match jsJoinOpt addressLines ", " with
    | .error e => .error e
    | .ok linesPart =>
      .ok (formatParts [linesPart, jsMember legalAddress "city",
        jsMember legalAddress "region", jsMember legalAddress "postalCode",
        jsMember legalAddress "country"])

/-- Headquarters formatting in `matchSuppliersWithGLEIF` (FileUploader.tsx
lines 192-198), same `postalCode`-before-`country` order; receiver
truthy-guarded by the caller. -/
def formatHeadquartersUploader (hq : JsVal) : Except JsErr String :=
  match jsJoinOpt (jsMember hq "addressLines") ", " with
  | .error e => .error e
  | .ok linesPart =>
    .ok (formatParts [linesPart, jsMember hq "city", jsMember hq "region",
      jsMember hq "postalCode", jsMember hq "country"])

/-- Which candidate link a classifier settled on for a parent relationship. -/
inductive UParentSource where
  | viaRelationshipRecord (url : JsVal)
  | viaReportingException (url : JsVal)
  | viaLeiRecord (url : JsVal)
deriving Repr

/-- The `if`/`else if` chain of `matchSuppliersWithGLEIF` over a parent link
bundle (FileUploader.tsx lines 206-222 and 229-245): `relationship-record`
first, `reporting-exception` second, `lei-record` last.  `links` is
`record.relationships["..."].links || {}`, hence non-nullish. -/
def uploaderClassifyParentLinks (links : JsVal) : Option UParentSource :=
  if (jsMember links "relationship-record").truthy then
    some (.viaRelationshipRecord (jsMember links "relationship-record"))
  else if (jsMember links "reporting-exception").truthy then
    some (.viaReportingException (jsMember links "reporting-exception"))
  else if (jsMember links "lei-record").truthy then
    some (.viaLeiRecord (jsMember links "lei-record"))
  else none

/-- The parent descriptor stored by `matchSuppliersWithGLEIF`
(`relationships.directParent` / `relationships.ultimateParent`). -/
structure UParentDesc where
  related : JsVal
  reportingException : JsVal
  reason : JsVal
deriving Repr

/-- Descriptor written for a classified link (FileUploader.tsx lines 206-222):
both the relationship-record and the lei-record branches store the link under
`related`; the exception branch stores the link and the placeholder reason. -/
def uploaderDescOf : Option UParentSource → Option UParentDesc
  | some (.viaRelationshipRecord u) =>
    some { related := u, reportingException := .undefined, reason := .undefined }
  | some (.viaReportingException u) =>
    some { related := .undefined, reportingException := u, reason := .str "EXCEPTION" }
  | some (.viaLeiRecord u) =>
    some { related := u, reportingException := .undefined, reason := .undefined }
  | none => none

/-- The company object assembled by `matchSuppliersWithGLEIF`
(FileUploader.tsx lines 268-289). -/
structure UCompany where
  name : JsVal
  lei : JsVal
  address : String
  jurisdiction : JsVal
  entityStatus : JsVal
  registrationStatus : JsVal
  parentLei : JsVal
  legalForm : Option String
  legalFormId : JsVal
  registrationAuthority : JsVal
  nextRenewalDate : JsVal
  initialRegistrationDate : JsVal
  lastUpdateDate : JsVal
  entityCategory : JsVal
  hasDirectParent : Bool
  hasUltimateParent : Bool
  hasChildren : Bool
  directParent : Option UParentDesc
  ultimateParent : Option UParentDesc
  directChildrenRelated : Option JsVal
  bic : JsVal
  headquartersAddress : Option String
deriving Repr

/-- The link bundle `record.relationships?.["direct-parent"]` guard followed
by `.links || {}` (FileUploader.tsx lines 203-204): returns `none` when the
guard fails, else the normalized links object. -/
def uploaderLinksFor (record : JsVal) (key : String) : Option JsVal :=
  let rel := jsMemberOpt (jsMember record "relationships") key
  if rel.truthy then
    let links := jsMember rel "links"
    some (if links.truthy then links else .obj [])
  else none

/-- Assembly of one matched company inside `matchSuppliersWithGLEIF`
(FileUploader.tsx lines 177-289), starting from `record = data.data[0]`.
Property reads that can throw (`record.attributes` on a null element,
`attributes.entity`, `entity.legalAddress`, `legalAddress.addressLines`,
`entity.legalName.name`, `attributes.registration.status`) are sequenced in
source order.  The inline reporting-exception reason prefetch (lines 293-319)
only rewrites the `reason` string for the first ten rows and is wrapped in its
own `try`/`catch`, so it cannot change whether a row matches and is not
modelled. -/
def uploaderBuildCompany (record : JsVal) : Except JsErr UCompany :=
  match record.getProp "attributes" with
  | .error e => .error e
  | .ok attributes =>
    match attributes.getProp "entity" with
    | .error e => .error e
    | .ok entity =>
      match entity.getProp "legalAddress" with
      | .error e => .error e
      | .ok legalAddress =>
        match formatLegalAddressUploader legalAddress with
        | .error e => .error e
        | .ok formattedAddress =>
          let hqVal := jsMember entity "headquartersAddress"
          match (if hqVal.truthy then (formatHeadquartersUploader hqVal).map some
                 else .ok none) with
          | .error e => .error e
          | .ok headquartersAddress =>
            let dpChoice := (uploaderLinksFor record "direct-parent").bind
              uploaderClassifyParentLinks
            let upChoice := (uploaderLinksFor record "ultimate-parent").bind
              uploaderClassifyParentLinks
            let childRelated :=
              match uploaderLinksFor record "direct-children" with
              | some links =>
                if (jsMember links "related").truthy then some (jsMember links "related")
                else none
              | none => none
            match (jsMember entity "legalName").getProp "name" with
            | .error e => .error e
            | .ok legalNameName =>
              match (jsMember attributes "registration").getProp "status" with
              | .error e => .error e
              | .ok registrationStatus =>
                let registration := jsMember attributes "registration"
                .ok { name := legalNameName
                      lei := jsMember record "id"
                      address := formattedAddress
                      jurisdiction := jsMember entity "jurisdiction"
                      entityStatus := jsMember entity "status"
                      registrationStatus := registrationStatus
                      parentLei :=
                        (let v := jsMemberOpt (jsMember entity "associatedEntity") "lei"
                         if v.truthy then v else .undefined)
                      legalForm := legalFormStringOf entity
                      legalFormId := jsMemberOpt (jsMember entity "legalForm") "id"
                      registrationAuthority := jsMember registration "managingLou"
                      nextRenewalDate := jsMember registration "nextRenewalDate"
                      initialRegistrationDate := jsMember registration "initialRegistrationDate"
                      lastUpdateDate := jsMember registration "lastUpdateDate"
                      entityCategory :=
                        (let v := jsMember entity "category"
                         if v.truthy then v else .undefined)
                      hasDirectParent := dpChoice.isSome
                      hasUltimateParent := upChoice.isSome
                      hasChildren := childRelated.isSome
                      directParent := uploaderDescOf dpChoice
                      ultimateParent := uploaderDescOf upChoice
                      directChildrenRelated := childRelated
                      bic :=
                        (let v := jsMember attributes "bic"
                         if v.truthy then v else .arr [])
                      headquartersAddress := headquartersAddress }

/-- Percent-encoding is not semantically modelled: the network oracle is keyed
by the resulting URL string and no claim depends on the encoding of
individual characters. -/
def encodeURIComponent (s : String) : String := s

/-- The name-search URL of the single-name matcher (FileUploader.tsx line 171
and SupplierTable.tsx line 172). -/
def searchUrl (name : String) : String :=
  "https://api.gleif.org/api/v1/lei-records?filter[entity.legalName]=" ++
    encodeURIComponent name ++ "&page[size]=1"

/-- How one loop iteration of `matchSuppliersWithGLEIF` ends for a supplier:
matched with a company, cleanly unmatched (`data.data` empty, company set to
`null`), or aborted by a thrown error (`catch` path, company also set to
`null`). -/
inductive MatchOutcome where
  | matched (c : UCompany)
  | noMatch
  | threw
deriving Repr

/-- One iteration of the `matchSuppliersWithGLEIF` loop body for a single
name (FileUploader.tsx lines 169-328) against the network oracle. -/
def uploaderMatchOne (f : String → Except JsErr JsVal) (name : String) : MatchOutcome :=
  match (match f (searchUrl name) with
         | .error e => (.error e : Except JsErr (Option UCompany))
         | .ok data =>
           match data.getProp "data" with
           | .error e => .error e
           | .ok dd =>
             if dd.truthy && jsGtZero (jsMember dd "length") then
               match uploaderBuildCompany (jsIndex dd 0) with
               | .error e => .error e
               | .ok c => .ok (some c)
             else .ok none) with
  | .ok (some c) => .matched c
  | .ok none => .noMatch
  | .error _ => .threw

/-- The company slot written into a supplier row by one loop iteration:
`null` for both the clean no-match and the `catch` path. -/
def outcomeCompany : MatchOutcome → Option UCompany
  | .matched c => some c
  | .noMatch => none
  | .threw => none

/-- A row of the working dataset as `matchSuppliersWithGLEIF` sees it:
`company = none` is JavaScript `undefined` (never attempted), `company = some
none` is `null` (attempted, no match), `company = some (some c)` is a
match.  Passthrough CSV columns are irrelevant to the embedded logic. -/
structure BSupplier where
  name : String
  company : Option (Option UCompany)
deriving Repr

/-- `suppliersToProcess.map(s => s.name)` for a sample of positions: the
names of the rows selected by the random shuffle-and-slice. -/
def sampledNames (ss : List BSupplier) (sample : List Nat) : List String :=
  sample.filterMap fun i => (ss.get? i).map (fun s => s.name)

/-- Mutation performed on a processed row: `supplier.company = ...`. -/
def applyOutcome (s : BSupplier) (o : MatchOutcome) : BSupplier :=
  { s with company := some (outcomeCompany o) }

/-- Final state of the row at absolute position `k` after the loop and the
closing `forEach` (FileUploader.tsx lines 165-339): the row is processed when
its position was sampled; otherwise the `forEach` resets `company` to
`undefined` unless the row's name coincides with a processed row's name (then
it is left untouched). -/
def markOne (sample : List Nat) (m : String → MatchOutcome) (snames : List String)
    (k : Nat) (s : BSupplier) : BSupplier :=
  if k ∈ sample then applyOutcome s (m s.name)
  else if s.name ∈ snames then s
  else { s with company := none }

/-- Recursion over the dataset applying `markOne` at each absolute
position. -/
def batchMark (sample : List Nat) (m : String → MatchOutcome) (snames : List String) :
    Nat → List BSupplier → List BSupplier
  | _, [] => []
  | k, s :: rest =>
    markOne sample m snames k s :: batchMark sample m snames (k + 1) rest

/-- `matchSuppliersWithGLEIF` (FileUploader.tsx lines 148-343) as a function
of the dataset, the positions selected by
`sort(() => 0.5 - Math.random()).slice(0, 40)` (the randomness is a
parameter), and the per-name match outcome.  `isDevelopment` is the constant
`true` in the source, so the cap branch depends only on the dataset length. -/
def matchSuppliersWithGLEIF (ss : List BSupplier) (sample : List Nat)
    (m : String → MatchOutcome) : List BSupplier :=
  if 40 < ss.length then
    batchMark sample m (sampledNames ss sample) 0 ss
  else
    ss.map fun s => applyOutcome s (m s.name)

/-- Names actually queried by the batch: the sampled rows when the cap
applies, every row otherwise. -/
def processedNames (ss : List BSupplier) (sample : List Nat) : List String :=
  if 40 < ss.length then sampledNames ss sample
  else ss.map fun s => s.name

/-- The throttle contribution of one processed name: the
`await new Promise(resolve => setTimeout(resolve, 250))` sits at the end of
the `try` block (FileUploader.tsx line 324), so a thrown error skips it. -/
def delayAfter : MatchOutcome → Nat
  | .matched _ => 250
  | .noMatch => 250
  | .threw => 0

/-- Total milliseconds of throttle delay awaited by the sequential batch loop
over a list of names. -/
def batchElapsedDelay (names : List String) (m : String → MatchOutcome) : Nat :=
  names.foldl (fun t n => t + delayAfter (m n)) 0

/-- Total throttle delay of one `matchSuppliersWithGLEIF` run. -/
def matchBatchDelay (ss : List BSupplier) (sample : List Nat)
    (m : String → MatchOutcome) : Nat :=
  batchElapsedDelay (processedNames ss sample) m

/-- Whether the iteration for a name ended on the `catch` path. -/
def threwOn (m : String → MatchOutcome) (n : String) : Bool :=
  match m n with
  | .threw => true
  | _ => false

/-! ## `SupplierTable.tsx`: per-row manual retry -/

/-- Legal-address formatting inside `refetchSupplier` (SupplierTable.tsx
lines 183-191): same `postalCode`-before-`country` order as the uploader. -/
def formatLegalAddressRefetch (legalAddress : JsVal) : Except JsErr String :=
  match legalAddress.getProp "addressLines" with
  | .error e => .error e
  | .ok addressLines =>
    match jsJoinOpt addressLines ", " with
    | .error e => .error e
    | .ok linesPart =>
      .ok (formatParts [linesPart, jsMember legalAddress "city",
        jsMember legalAddress "region", jsMember legalAddress "postalCode",
        jsMember legalAddress "country"])

/-- Headquarters formatting inside `refetchSupplier` (SupplierTable.tsx lines
193-199). -/
def formatHeadquartersRefetch (hq : JsVal) : Except JsErr String :=
  match jsJoinOpt (jsMember hq "addressLines") ", " with
  | .error e => .error e
  | .ok linesPart =>
    .ok (formatParts [linesPart, jsMember hq "city", jsMember hq "region",
      jsMember hq "postalCode", jsMember hq "country"])

/-- The parent descriptor stored by `refetchSupplier`
(`relationships.directParent` in SupplierTable.tsx). -/
structure RParentDesc where
  leiRecord : JsVal
  relationshipRecord : JsVal
  reportingException : JsVal
  related : JsVal
deriving Repr

/-- Outcome of the four sequential `if` statements of `refetchSupplier` over a
parent link bundle (SupplierTable.tsx lines 206-231): copied links, the
`hasDirectParent` flag and the `directParentException` flag.  Note that a
`reporting-exception` link forces the flag pair to (exception, no parent)
even when a `lei-record` link is present. -/
def refetchClassifyParentLinks (links : JsVal) : RParentDesc × Bool × Bool :=
  let lei := jsMember links "lei-record"
  let rr := jsMember links "relationship-record"
  let re := jsMember links "reporting-exception"
  let rel := jsMember links "related"
  let has1 := lei.truthy
  let has2 := if rr.truthy then (if lei.truthy then has1 else false) else has1
  let has3 := if re.truthy then false else has2
  let has4 := if rel.truthy then (if lei.truthy then has3 else false) else has3
  ({ leiRecord := if lei.truthy then lei else .undefined
     relationshipRecord := if rr.truthy then rr else .undefined
     reportingException := if re.truthy then re else .undefined
     related := if rel.truthy then rel else .undefined },
   has4, re.truthy)

/-- The company object assembled by `refetchSupplier` (SupplierTable.tsx
lines 287-310). -/
structure RCompany where
  name : JsVal
  lei : JsVal
  address : String
  jurisdiction : JsVal
  entityStatus : JsVal
  registrationStatus : JsVal
  parentLei : JsVal
  legalForm : Option String
  legalFormId : JsVal
  registrationAuthority : JsVal
  nextRenewalDate : JsVal
  initialRegistrationDate : JsVal
  lastUpdateDate : JsVal
  entityCategory : JsVal
  hasDirectParent : Bool
  hasUltimateParent : Bool
  hasChildren : Bool
  directParentException : Bool
  ultimateParentException : Bool
  directParent : Option RParentDesc
  ultimateParent : Option RParentDesc
  directChildrenRelated : Option JsVal
  bic : JsVal
  headquartersAddress : Option String
deriving Repr

/-- Link-bundle lookup of `refetchSupplier`: guard
`record.relationships?.["direct-parent"]` then `.links || {}`
(SupplierTable.tsx lines 206-207). -/
def refetchLinksFor (record : JsVal) (key : String) : Option JsVal :=
  let rel := jsMemberOpt (jsMember record "relationships") key
  if rel.truthy then
    let links := jsMember rel "links"
    some (if links.truthy then links else .obj [])
  else none

/-- Assembly of one matched company inside `refetchSupplier`
(SupplierTable.tsx lines 177-310), starting from `record = data.data[0]`. -/
def refetchBuildCompany (record : JsVal) : Except JsErr RCompany :=
  match record.getProp "attributes" with
  | .error e => .error e
  | .ok attributes =>
    match attributes.getProp "entity" with
    | .error e => .error e
    | .ok entity =>
      match entity.getProp "legalAddress" with
      | .error e => .error e
      | .ok legalAddress =>
        match formatLegalAddressRefetch legalAddress with
        | .error e => .error e
        | .ok formattedAddress =>
          let hqVal := jsMember entity "headquartersAddress"
          match (if hqVal.truthy then (formatHeadquartersRefetch hqVal).map some
                 else .ok none) with
          | .error e => .error e
          | .ok headquartersAddress =>
            let dp := (refetchLinksFor record "direct-parent").map
              refetchClassifyParentLinks
            let up := (refetchLinksFor record "ultimate-parent").map
              refetchClassifyParentLinks
            let childRelated :=
              match refetchLinksFor record "direct-children" with
              | some links =>
                if (jsMember links "related").truthy then some (jsMember links "related")
                else none
              | none => none
            match (jsMember entity "legalName").getProp "name" with
            | .error e => .error e
            | .ok legalNameName =>
              match (jsMember attributes "registration").getProp "status" with
              | .error e => .error e
              | .ok registrationStatus =>
                let registration := jsMember attributes "registration"
                .ok { name := legalNameName
                      lei := jsMember record "id"
                      address := formattedAddress
                      jurisdiction := jsMember entity "jurisdiction"
                      entityStatus := jsMember entity "status"
                      registrationStatus := registrationStatus
                      parentLei :=
                        (let v := jsMemberOpt (jsMember entity "associatedEntity") "lei"
                         if v.truthy then v else .undefined)
                      legalForm := legalFormStringOf entity
                      legalFormId := jsMemberOpt (jsMember entity "legalForm") "id"
                      registrationAuthority := jsMember registration "managingLou"
                      nextRenewalDate := jsMember registration "nextRenewalDate"
                      initialRegistrationDate := jsMember registration "initialRegistrationDate"
                      lastUpdateDate := jsMember registration "lastUpdateDate"
                      entityCategory :=
                        (let v := jsMember entity "category"
                         if v.truthy then v else .undefined)
                      hasDirectParent := (dp.map fun t => t.2.1).getD false
                      hasUltimateParent := (up.map fun t => t.2.1).getD false
                      hasChildren := childRelated.isSome
                      directParentException := (dp.map fun t => t.2.2).getD false
                      ultimateParentException := (up.map fun t => t.2.2).getD false
                      directParent := dp.map fun t => t.1
                      ultimateParent := up.map fun t => t.1
                      directChildrenRelated := childRelated
                      bic :=
                        (let v := jsMember attributes "bic"
                         if v.truthy then v else .arr [])
                      headquartersAddress := headquartersAddress }

/-- The follow-up children-count URL of `refetchSupplier` (SupplierTable.tsx
line 313). -/
def childrenCheckUrl (lei : JsVal) : String :=
  "https://api.gleif.org/api/v1/lei-records?filter[entity.parent.lei]=" ++ jsString lei ++
    "&page[size]=1"

/-- Body of `refetchSupplier` inside its outer `try` for one name
(SupplierTable.tsx lines 171-333): search, build the company, then overwrite
`hasChildren` from a second request that has its own `catch` (which forces
`hasChildren = false`).  `.ok none` is the clean no-match path. -/
def refetchMatchCore (f : String → Except JsErr JsVal) (name : String) :
    Except JsErr (Option RCompany) :=
  match f (searchUrl name) with
  | .error e => .error e
  | .ok data =>
    match data.getProp "data" with
    | .error e => .error e
    | .ok dd =>
      if dd.truthy && jsGtZero (jsMember dd "length") then
        match refetchBuildCompany (jsIndex dd 0) with
        | .error e => .error e
        | .ok c =>
          let hasKids :=
            match (match f (childrenCheckUrl c.lei) with
                   | .error e => (.error e : Except JsErr JsVal)
                   | .ok childrenData => childrenData.getProp "data") with
            | .ok v => v.truthy && jsGtZero (jsMember v "length")
            | .error _ => false
          .ok (some { c with hasChildren := hasKids })
      else .ok none

/-- A supplier row as `refetchSupplier` sees it. -/
structure RSupplier where
  name : String
  company : Option (Option RCompany)
deriving Repr

/-- Observable effect of one `refetchSupplier` invocation: whether a search
request was issued, the row afterwards, the pending-name set while the fetch
was in flight, and the pending-name set after the `finally` block. -/
structure RefetchResult where
  fetched : Bool
  supplier : RSupplier
  pendingDuring : List String
  pendingAfter : List String
deriving Repr

/-- `refetchSupplier` (SupplierTable.tsx lines 161-349) as a step function on
the `pendingMatches` set (modelled as a list of names).  A pending name
returns immediately with nothing changed; otherwise the name is added for the
duration, the row's `company` is written on every completed path (`null` on
both the no-match and the `catch` path), and the `finally` block removes the
name again. -/
def refetchSupplier (f : String → Except JsErr JsVal) (pending : List String)
    (s : RSupplier) : RefetchResult :=
  if pending.contains s.name then
    { fetched := false, supplier := s, pendingDuring := pending, pendingAfter := pending }
  else
    let pendingDuring := s.name :: pending
    let newCompany : Option RCompany :=
      match refetchMatchCore f s.name with
      | .ok c => c
      | .error _ => none
    { fetched := true
      supplier := { s with company := some newCompany }
      pendingDuring := pendingDuring
      pendingAfter := pendingDuring.erase s.name }

/-! ## Spec-side reference definitions

These two definitions are written from the specification's words, not from
the source; they exist only to be compared against the code's own
definitions. -/

/-- Tie-break policy exactly as worded by the spec (§4.2): prefer the direct
entity (`lei-record`) link first, the `reporting-exception` link second, the
indirect `relationship-record` link last. -/
def specTieBreakClassify (links : JsVal) : Option UParentSource :=
  if (jsMember links "lei-record").truthy then
    some (.viaLeiRecord (jsMember links "lei-record"))
  else if (jsMember links "reporting-exception").truthy then
    some (.viaReportingException (jsMember links "reporting-exception"))
  else if (jsMember links "relationship-record").truthy then
    some (.viaRelationshipRecord (jsMember links "relationship-record"))
  else none

/-- Address formatting exactly as worded by the claim: components in the
order address lines (joined internally with comma-space), city, region,
country, postal code; falsy components dropped; joined with comma-space. -/
def specAddressFormat (legalAddress : JsVal) : Except JsErr String :=
  match legalAddress.getProp "addressLines" with
  | .error e => .error e
  | .ok addressLines =>
    match jsJoinOpt addressLines ", " with
    | .error e => .error e
    | .ok linesPart =>
      .ok (formatParts [linesPart, jsMember legalAddress "city",
        jsMember legalAddress "region", jsMember legalAddress "country",
        jsMember legalAddress "postalCode"])

/-- The same specification formatting with the last two components
transposed (postal code before country): the order the uploader and retry
paths actually use. -/
def specAddressFormatSwapped (legalAddress : JsVal) : Except JsErr String :=
  match legalAddress.getProp "addressLines" with
  | .error e => .error e
  | .ok addressLines =>
    match jsJoinOpt addressLines ", " with
    | .error e => .error e
    | .ok linesPart =>
      .ok (formatParts [linesPart, jsMember legalAddress "city",
        jsMember legalAddress "region", jsMember legalAddress "postalCode",
        jsMember legalAddress "country"])

/-! ## Concrete values used by witnesses and counterexamples -/

/-- A syntactically minimal registry payload that `parseCompanyFromGLEIF`
accepts. -/
def minimalEntityPayload : JsVal :=
  .obj [("id", .str "ULEI"),
        ("attributes", .obj [
          ("entity", .obj [
            ("legalName", .obj [("name", .str "Ultimate AG")]),
            ("legalAddress", .obj [("city", .str "Berlin"), ("country", .str "DE")])]),
          ("registration", .obj [("status", .str "ISSUED")])])]

/-- Fallback company value used by total extraction helpers. -/
def dummyCompany : Company :=
  { name := .undefined, lei := .undefined, address := "", jurisdiction := .undefined
    entityStatus := .undefined, registrationStatus := .undefined, parentLei := .undefined
    legalForm := none, legalFormId := .undefined, registrationAuthority := .undefined
    nextRenewalDate := .undefined, initialRegistrationDate := .undefined
    lastUpdateDate := .undefined, entityCategory := .undefined
    hasDirectParent := false, hasUltimateParent := false, hasChildren := false
    relationships := { directParent := none, ultimateParent := none, directChildren := none }
    bic := .arr [], headquartersAddress := none }

/-- The company that `parseCompanyFromGLEIF` extracts from
`minimalEntityPayload`. -/
def minimalParsedCompany : Company :=
  match parseCompanyFromGLEIF minimalEntityPayload with
  | .ok (some c) => c
  | _ => dummyCompany

/-- Root company for the hierarchy scenarios: a direct-parent `lei-record`
link `"D"` and an ultimate-parent `lei-record` link `"U"`. -/
def c2Company : Company :=
  { dummyCompany with
    name := .str "Root", lei := .str "ROOT"
    hasDirectParent := true, hasUltimateParent := true
    relationships :=
      { directParent := some
          { relationshipRecord := .undefined
            leiRecord := .str "D"
            reportingException := .undefined }
        ultimateParent := some
          { relationshipRecord := .undefined
            leiRecord := .str "U"
            reportingException := .undefined }
        directChildren := none } }

/-- Oracle for the hierarchy scenarios: the direct-parent fetch `"D"` raises,
the ultimate-parent fetch `"U"` resolves to a parseable entity. -/
def c2Oracle : String → Except JsErr JsVal := fun u =>
  if u == "D" then .error .typeError
  else if u == "U" then .ok (.obj [("data", minimalEntityPayload)])
  else .error .typeError

/-- A parent link bundle carrying all three candidate links at once. -/
def c3LinksAll : JsVal :=
  .obj [("relationship-record", .str "R"), ("reporting-exception", .str "E"),
        ("lei-record", .str "L")]

/-- Parent links for exercising the `fetchParentCompany` precedence: all
three links present, with the `lei-record` link pointing at `"LEI"`. -/
def c3EntityLinks : ParentLinks :=
  { relationshipRecord := .str "RR", leiRecord := .str "LEI",
    reportingException := .str "EXC" }

/-- Oracle for the `fetchParentCompany` precedence witness. -/
def c3Oracle : String → Except JsErr JsVal := fun u =>
  if u == "LEI" then .ok (.obj [("data", minimalEntityPayload)])
  else .error .typeError

/-- A registry response whose `data` is a relationship record pointing at the
terminal entity `"B"`. -/
def c6RelationshipRecord : JsVal :=
  .obj [("type", .str "relationship-records"),
        ("relationships", .obj [("lei-record", .obj [("links", .obj [("related", .str "B")])])])]

/-- Two-hop oracle: `"A"` returns the relationship record, `"B"` the terminal
entity. -/
def c6Oracle : String → Except JsErr JsVal := fun u =>
  if u == "A" then .ok (.obj [("data", c6RelationshipRecord)])
  else if u == "B" then .ok (.obj [("data", minimalEntityPayload)])
  else .error .typeError

/-- A reporting-exception resource as returned by the registry. -/
def c7ExceptionRecord : JsVal :=
  .obj [("type", .str "reporting-exceptions"),
        ("attributes", .obj [("lei", .str "CHILD"), ("category", .str "DIRECT_ACCOUNTING_CONSOLIDATION_PARENT"),
          ("reason", .str "NO_LEI")])]

/-- Oracle whose `"X"` target is a reporting exception. -/
def c7Oracle : String → Except JsErr JsVal := fun u =>
  if u == "X" then .ok (.obj [("data", c7ExceptionRecord)])
  else .error .typeError

/-- The parsed exception extracted from `c7ExceptionRecord`. -/
def c7Exception : Option RepException :=
  match parseReportingExceptionFromGLEIF c7ExceptionRecord with
  | .ok e => e
  | .error _ => none

/-- A legal address whose city, postal code and country are all present: the
two formatting orders disagree on it. -/
def c8Address : JsVal :=
  .obj [("city", .str "Berlin"), ("postalCode", .str "10115"), ("country", .str "DE")]

/-- A 41-row dataset of fresh (never attempted) suppliers. -/
def c5Dataset : List BSupplier :=
  (List.range 41).map fun i => { name := "n" ++ toString i, company := none }

/-- A 40-element sample of positions 1..40 (position 0 is excluded). -/
def c5Sample : List Nat := List.range' 1 40

/-- A matcher whose every query cleanly finds no match. -/
def noMatchMatcher : String → MatchOutcome := fun _ => .noMatch

/-- A matcher whose every query throws. -/
def throwAllMatcher : String → MatchOutcome := fun _ => .threw

/-- A one-row dataset for the throttle counterexample. -/
def oneSupplierBatch : List BSupplier := [{ name := "ACME", company := none }]

/-! ## Supporting lemmas -/

/-- Property access on a truthy value never throws. -/
theorem getProp_of_truthy (v : JsVal) (k : String) (h : v.truthy = true) :
    v.getProp k = .ok (jsMember v k) := by
  cases v <;> simp_all [JsVal.truthy, JsVal.getProp]

/-- `parentFromRelationshipRecord` never throws and never returns both a
parent entity and a parent exception. -/
theorem parentFromRelationshipRecord_exclusive (f : String → Except JsErr JsVal)
    (links : ParentLinks) (r : ParentResult)
    (h : parentFromRelationshipRecord f links = .ok r) :
    r.parentEntity = none ∨ r.parentException = none := by
  unfold parentFromRelationshipRecord at h
  split at h
  · split at h <;> cases h <;> exact Or.inr rfl
  · cases h; exact Or.inr rfl

/-- `parentFromException` never returns both a parent entity and a parent
exception. -/
theorem parentFromException_exclusive (f : String → Except JsErr JsVal)
    (links : ParentLinks) (r : ParentResult)
    (h : parentFromException f links = .ok r) :
    r.parentEntity = none ∨ r.parentException = none := by
  unfold parentFromException at h
  split at h
  · split at h
    · cases h; exact Or.inl rfl
    · exact parentFromRelationshipRecord_exclusive f links r h
  · exact parentFromRelationshipRecord_exclusive f links r h

/-- `fetchParentCompanyCore` never returns both a parent entity and a parent
exception. -/
theorem fetchParentCompanyCore_exclusive (f : String → Except JsErr JsVal)
    (links : ParentLinks) (r : ParentResult)
    (h : fetchParentCompanyCore f links = .ok r) :
    r.parentEntity = none ∨ r.parentException = none := by
  unfold fetchParentCompanyCore at h
  repeat' split at h
  all_goals
    first
      | exact parentFromException_exclusive f links r h
      | (cases h; exact Or.inr rfl)
      | cases h

/-- `fetchParentCompany` returns at most one of parent entity and parent
exception. -/
theorem fetchParentCompany_exclusive (f : String → Except JsErr JsVal)
    (company : Option Company) :
    (fetchParentCompany f company).parentEntity = none ∨
      (fetchParentCompany f company).parentException = none := by
  unfold fetchParentCompany
  split
  · exact Or.inl rfl
  · split
    · exact Or.inl rfl
    · split
      · exact fetchParentCompanyCore_exclusive f _ _ (by assumption)
      · exact Or.inl rfl

/-- `fetchUltimateParentCompany` returns at most one of parent entity and
parent exception. -/
theorem fetchUltimateParentCompany_exclusive (f : String → Except JsErr JsVal)
    (company : Option Company) :
    (fetchUltimateParentCompany f company).parentEntity = none ∨
      (fetchUltimateParentCompany f company).parentException = none := by
  unfold fetchUltimateParentCompany
  split
  · exact Or.inl rfl
  · split
    · exact Or.inl rfl
    · split
      · exact fetchParentCompanyCore_exclusive f _ _ (by assumption)
      · exact Or.inl rfl

/-! ## C1 -/

/-- C1, counterexample: a payload whose `attributes` is a truthy object
without an `entity` field makes `parseCompanyFromGLEIF` throw a `TypeError`
(the source line `const legalAddress = entity.legalAddress` dereferences
`undefined`) instead of returning `null`, so the claim that malformed input
always yields `null` and no exception ever escapes is false. -/
theorem claim_C1_counterexample :
    parseCompanyFromGLEIF (.obj [("attributes", .obj [])]) = .error .typeError := rfl

/-- C1, amended: `parseCompanyFromGLEIF` returns `null` (without throwing)
exactly on the guard the source checks, namely a falsy payload or a falsy
`attributes` field; but when `attributes` is truthy and `entity` is missing
or `null`, a `TypeError` escapes the parser. -/
theorem claim_C1 (data : JsVal) :
    ((!data.truthy || !(jsMember data "attributes").truthy) = true →
      parseCompanyFromGLEIF data = .ok none) ∧
    (data.truthy = true → (jsMember data "attributes").truthy = true →
      (jsMember (jsMember data "attributes") "entity" = .undefined ∨
        jsMember (jsMember data "attributes") "entity" = .null) →
      parseCompanyFromGLEIF data = .error .typeError) := by
  constructor
  · intro h
    simp [parseCompanyFromGLEIF, h]
  · intro h1 h2 h3
    have hguard : (!data.truthy || !(jsMember data "attributes").truthy) = false := by
      simp [h1, h2]
    rcases h3 with h | h <;>
      simp [parseCompanyFromGLEIF, hguard, h, JsVal.getProp]

/-- C1 witness: the amended theorem evaluated at a concrete empty payload and
at a concrete payload with a `null` entity. -/
theorem claim_C1_witness :
    parseCompanyFromGLEIF (.obj []) = .ok none ∧
    parseCompanyFromGLEIF (.obj [("attributes", .obj [("entity", .null)])]) =
      .error .typeError :=
  ⟨(claim_C1 (.obj [])).1 rfl,
   (claim_C1 (.obj [("attributes", .obj [("entity", .null)])])).2 rfl rfl (Or.inr rfl)⟩

/-! ## C2 -/

/-- C2, counterexample: with a root whose direct-parent fetch (`"D"`) raises
and whose ultimate-parent fetch (`"U"`) succeeds, `fetchCorporateHierarchy`
returns an aggregate with `directParent` and `directParentException` both
`null` and `ultimateParent` populated — but no partial-failure indicator is
set: the aggregate has no `isPartial` field at all and its only failure field,
`error`, is still `null`, because `fetchParentCompany` swallowed the error
itself.  This refutes the claim that `isPartial` is set to `true` (optionally
with an error summary) when the direct-parent fetch raises. -/
theorem claim_C2_counterexample :
    (fetchCorporateHierarchy c2Oracle (some c2Company)).map
      (fun h => (h.directParent.isSome, h.directParentException.isSome,
                 h.error, h.ultimateParent.isSome)) =
      some (false, false, none, true) := rfl

/-- C2, amended: if the direct-parent fetch raises an error, the returned
aggregate has `directParent` and `directParentException` both `null`,
`ultimateParent`/`children` are still populated by their own fetches, and the
overall call never throws (it is a total function of the oracle) — but no
partial-failure indicator is set: the `error` field of the aggregate remains
`null`. -/
theorem claim_C2 (f : String → Except JsErr JsVal) (c : Company)
    (links : ParentLinks) (e : JsErr)
    (hdp : c.hasDirectParent = true)
    (hlinks : c.relationships.directParent = some links)
    (hlei : links.leiRecord.truthy = true)
    (herr : f (jsString links.leiRecord) = .error e) :
    fetchParentCompany f (some c) = { parentEntity := none, parentException := none } ∧
    fetchCorporateHierarchy f (some c) = some
      { current := c
        directParent := none
        directParentException := none
        ultimateParent :=
          (if c.hasUltimateParent then fetchUltimateParentCompany f (some c)
           else { parentEntity := none, parentException := none }).parentEntity
        ultimateParentException :=
          (if c.hasUltimateParent then fetchUltimateParentCompany f (some c)
           else { parentEntity := none, parentException := none }).parentException
        children :=
          if c.hasChildren && (childLinkOf c).truthy
          then fetchDirectChildren f c.lei (childLinkOf c) else []
        loading := false
        error := none } := by
  have hpc : fetchParentCompany f (some c) =
      { parentEntity := none, parentException := none } := by
    simp only [fetchParentCompany, hlinks, fetchParentCompanyCore, hlei, if_true, herr]
  refine ⟨hpc, ?_⟩
  simp only [fetchCorporateHierarchy, hdp, if_true, hpc]

/-- C2 witness: the amended theorem evaluated at the concrete root company
and oracle of the counterexample scenario. -/
theorem claim_C2_witness :
    fetchParentCompany c2Oracle (some c2Company) =
      { parentEntity := none, parentException := none } :=
  (claim_C2 c2Oracle c2Company
    { relationshipRecord := .undefined, leiRecord := .str "D", reportingException := .undefined }
    .typeError rfl rfl rfl rfl).1

/-! ## C4 -/

/-- C4: for every oracle and company, at most one of the pair (parent
entity, parent reporting exception) is non-null in the result of
`fetchParentCompany` and of `fetchUltimateParentCompany`, and in every
assembled `fetchCorporateHierarchy` aggregate this holds for both the
direct-parent and the ultimate-parent slot. -/
theorem claim_C4 (f : String → Except JsErr JsVal) (company : Option Company) :
    ((fetchParentCompany f company).parentEntity = none ∨
      (fetchParentCompany f company).parentException = none) ∧
    ((fetchUltimateParentCompany f company).parentEntity = none ∨
      (fetchUltimateParentCompany f company).parentException = none) ∧
    (∀ h : Hierarchy, fetchCorporateHierarchy f company = some h →
      (h.directParent = none ∨ h.directParentException = none) ∧
      (h.ultimateParent = none ∨ h.ultimateParentException = none)) := by
  refine ⟨fetchParentCompany_exclusive f company,
    fetchUltimateParentCompany_exclusive f company, ?_⟩
  intro h hh
  cases company with
  | none => cases hh
  | some c =>
    unfold fetchCorporateHierarchy at hh
    cases hh
    constructor
    · by_cases hd : c.hasDirectParent = true
      · simpa [hd] using fetchParentCompany_exclusive f (some c)
      · simp [hd]
    · by_cases hu : c.hasUltimateParent = true
      · simpa [hu] using fetchUltimateParentCompany_exclusive f (some c)
      · simp [hu]

/-- The aggregate built in the C2 scenario, used to instantiate the C4
witness. -/
theorem claim_C4_witness :
    ((fetchParentCompany c2Oracle (some c2Company)).parentEntity = none ∨
      (fetchParentCompany c2Oracle (some c2Company)).parentException = none) ∧
    ∀ h : Hierarchy, fetchCorporateHierarchy c2Oracle (some c2Company) = some h →
      (h.directParent = none ∨ h.directParentException = none) ∧
      (h.ultimateParent = none ∨ h.ultimateParentException = none) :=
  ⟨(claim_C4 c2Oracle (some c2Company)).1, (claim_C4 c2Oracle (some c2Company)).2.2⟩

/-! ## C3 -/

/-- C3, counterexample: on a link bundle carrying all three candidate links,
the batch matcher's classifier (`matchSuppliersWithGLEIF`) settles on the
`relationship-record` link while the precedence the claim states (direct
entity link first) would settle on the `lei-record` link — so not every code
path applies the claimed precedence. -/
theorem claim_C3_counterexample :
    uploaderClassifyParentLinks c3LinksAll =
      some (.viaRelationshipRecord (.str "R")) ∧
    specTieBreakClassify c3LinksAll = some (.viaLeiRecord (.str "L")) ∧
    uploaderClassifyParentLinks c3LinksAll ≠ specTieBreakClassify c3LinksAll := by
  refine ⟨rfl, rfl, ?_⟩
  intro h
  rw [show uploaderClassifyParentLinks c3LinksAll =
        some (.viaRelationshipRecord (.str "R")) from rfl,
      show specTieBreakClassify c3LinksAll =
        some (.viaLeiRecord (.str "L")) from rfl] at h
  exact UParentSource.noConfusion (Option.some.inj h)

/-- C3, amended: the precedence direct entity link first, exception link
second, relationship-record link last is applied by `fetchParentCompany` (and
`fetchUltimateParentCompany`, which shares its core), but not by the other
code paths: the batch matcher settles on a `relationship-record` link first
whenever one is present, and the per-row retry's classification lets a
`reporting-exception` link override a `lei-record` link (exception flag set,
has-parent flag cleared). -/
theorem claim_C3 :
    (∀ (f : String → Except JsErr JsVal) (links : ParentLinks)
       (leiData ld : JsVal) (c : Company),
       links.leiRecord.truthy = true →
       f (jsString links.leiRecord) = .ok leiData →
       leiData.getProp "data" = .ok ld →
       ld.truthy = true →
       parseCompanyFromGLEIF ld = .ok (some c) →
       fetchParentCompanyCore f links =
         .ok { parentEntity := some c, parentException := none }) ∧
    (∀ links : JsVal, (jsMember links "relationship-record").truthy = true →
       uploaderClassifyParentLinks links =
         some (.viaRelationshipRecord (jsMember links "relationship-record"))) ∧
    (∀ links : JsVal, (jsMember links "reporting-exception").truthy = true →
       (refetchClassifyParentLinks links).2.2 = true ∧
       (refetchClassifyParentLinks links).2.1 = false) := by
  refine ⟨?_, ?_, ?_⟩
  · intro f links leiData ld c h1 h2 h3 h4 h5
    simp only [fetchParentCompanyCore, h1, if_true, h2, h3, h4, h5]
  · intro links h
    simp [uploaderClassifyParentLinks, h]
  · intro links h
    unfold refetchClassifyParentLinks
    simp only [h, if_true]
    constructor
    · trivial
    · split <;> first | rfl | (split <;> rfl)

/-- C3 witness: the three parts of the amended theorem evaluated at concrete
inputs (an oracle resolving the `lei-record` link, and the all-three-links
bundle). -/
theorem claim_C3_witness :
    fetchParentCompanyCore c3Oracle c3EntityLinks =
      .ok { parentEntity := some minimalParsedCompany, parentException := none } ∧
    uploaderClassifyParentLinks c3LinksAll =
      some (.viaRelationshipRecord (.str "R")) ∧
    ((refetchClassifyParentLinks c3LinksAll).2.2 = true ∧
      (refetchClassifyParentLinks c3LinksAll).2.1 = false) :=
  ⟨claim_C3.1 c3Oracle c3EntityLinks (.obj [("data", minimalEntityPayload)])
      minimalEntityPayload minimalParsedCompany rfl rfl rfl rfl rfl,
   claim_C3.2.1 c3LinksAll rfl,
   claim_C3.2.2 c3LinksAll rfl⟩

/-! ## C6 -/

/-- C6: when the fetched target of a link is a relationship record (its type
is not `reporting-exceptions`) carrying a nested `lei-record` link,
`followRelationshipLink` follows that second link and returns a result tagged
as an entity (`lei-record`) whose payload is `parseCompanyFromGLEIF` applied
to the terminal record fetched from the nested link — not to the intermediate
relationship record. -/
theorem claim_C6 (f : String → Except JsErr JsVal) (url : String)
    (resp rd resp2 ld : JsVal) (c : Option Company)
    (h1 : f url = .ok resp)
    (h2 : resp.getProp "data" = .ok rd)
    (h3 : rd.truthy = true)
    (h4 : (jsMember rd "type").isStr "reporting-exceptions" = false)
    (h5 : (nestedLeiRecordLink rd).truthy = true)
    (h6 : f (jsString (nestedLeiRecordLink rd)) = .ok resp2)
    (h7 : resp2.getProp "data" = .ok ld)
    (h8 : ld.truthy = true)
    (h9 : parseCompanyFromGLEIF ld = .ok c) :
    followRelationshipLink f url = some (.leiRecord c) := by
  simp only [followRelationshipLink, followRelationshipLinkCore, h1, h2, h3,
    if_true, h4, h5, h6, h7, h8, h9, Bool.false_eq_true, if_false]

/-- C6 witness: the theorem evaluated on the concrete two-hop oracle, whose
terminal record parses to `minimalParsedCompany`. -/
theorem claim_C6_witness :
    followRelationshipLink c6Oracle "A" = some (.leiRecord (some minimalParsedCompany)) :=
  claim_C6 c6Oracle "A" (.obj [("data", c6RelationshipRecord)]) c6RelationshipRecord
    (.obj [("data", minimalEntityPayload)]) minimalEntityPayload
    (some minimalParsedCompany) rfl rfl rfl rfl rfl rfl rfl rfl rfl

/-! ## C7 -/

/-- C7: when the fetched target of a link is itself a reporting-exception
resource, `followRelationshipLink` never returns a result tagged as an
entity, and whenever the exception parse completes it returns the result
tagged `exception` carrying the parsed exception data. -/
theorem claim_C7 (f : String → Except JsErr JsVal) (url : String)
    (resp rd : JsVal)
    (h1 : f url = .ok resp)
    (h2 : resp.getProp "data" = .ok rd)
    (h3 : rd.truthy = true)
    (h4 : (jsMember rd "type").isStr "reporting-exceptions" = true) :
    LinkResult.isEntityTagged (followRelationshipLink f url) = false ∧
    (∀ exc : Option RepException,
      parseReportingExceptionFromGLEIF rd = .ok exc →
      followRelationshipLink f url = some (.exception exc)) := by
  constructor
  · cases hp : parseReportingExceptionFromGLEIF rd with
    | error e =>
      simp [followRelationshipLink, followRelationshipLinkCore, h1, h2, h3, h4, hp,
        LinkResult.isEntityTagged]
    | ok exc =>
      simp [followRelationshipLink, followRelationshipLinkCore, h1, h2, h3, h4, hp,
        LinkResult.isEntityTagged]
  · intro exc hp
    simp [followRelationshipLink, followRelationshipLinkCore, h1, h2, h3, h4, hp]

/-- C7 witness: the theorem evaluated on the concrete exception oracle. -/
theorem claim_C7_witness :
    followRelationshipLink c7Oracle "X" = some (.exception c7Exception) :=
  (claim_C7 c7Oracle "X" (.obj [("data", c7ExceptionRecord)]) c7ExceptionRecord
    rfl rfl rfl rfl).2 c7Exception rfl

/-! ## C8 -/

/-- C8, counterexample: on a legal address with city, postal code and country
all present, the batch matcher's formatter (`matchSuppliersWithGLEIF`)
produces the postal code before the country, while the order the claim states
(city, region, country, postal code) produces the country first — so not
every code path formats in the claimed order. -/
theorem claim_C8_counterexample :
    formatLegalAddressUploader c8Address = .ok "Berlin, 10115, DE" ∧
    specAddressFormat c8Address = .ok "Berlin, DE, 10115" ∧
    formatLegalAddressUploader c8Address ≠ specAddressFormat c8Address := by
  refine ⟨rfl, rfl, ?_⟩
  intro h
  rw [show formatLegalAddressUploader c8Address = .ok "Berlin, 10115, DE" from rfl,
      show specAddressFormat c8Address = .ok "Berlin, DE, 10115" from rfl] at h
  have := Except.ok.inj h
  simp at this

/-- C8, amended: the parser in `companyUtils.ts` formats addresses in the
claimed order (lines, city, region, country, postal code); the batch matcher
and the per-row retry use the transposed order (lines, city, region, postal
code, country); all paths drop falsy components and join with comma-space,
and the claim's example components format to the claimed string. -/
theorem claim_C8 (legalAddress : JsVal) :
    formatLegalAddressUtils legalAddress = specAddressFormat legalAddress ∧
    formatLegalAddressUploader legalAddress = specAddressFormatSwapped legalAddress ∧
    formatLegalAddressRefetch legalAddress = specAddressFormatSwapped legalAddress ∧
    formatParts [.str "", .str "Berlin", .null, .str "10115", .str "DE"] =
      "Berlin, 10115, DE" :=
  ⟨rfl, rfl, rfl, rfl⟩

/-! ## C5 -/

/-- Pointwise description of `batchMark`. -/
theorem batchMark_get? (sample : List Nat) (m : String → MatchOutcome)
    (snames : List String) :
    ∀ (k i : Nat) (ss : List BSupplier),
      (batchMark sample m snames k ss).get? i =
        (ss.get? i).map (markOne sample m snames (k + i)) := by
  intro k i ss
  induction ss generalizing k i with
  | nil => simp [batchMark]
  | cons s rest ih =>
    cases i with
    | zero => simp [batchMark]
    | succ j =>
      have harith : k + 1 + j = k + (j + 1) := by omega
      have hstep : (batchMark sample m snames k (s :: rest)).get? (j + 1) =
          (batchMark sample m snames (k + 1) rest).get? j := rfl
      rw [hstep, ih (k + 1) j, harith]
      rfl

/-- A processed row's slot is filled; an unprocessed fresh row's slot stays
empty. -/
theorem markOne_isSome (sample : List Nat) (m : String → MatchOutcome)
    (snames : List String) (k : Nat) (s : BSupplier) (hs : s.company = none) :
    (markOne sample m snames k s).company.isSome = decide (k ∈ sample) := by
  unfold markOne
  by_cases hk : k ∈ sample
  · simp [hk, applyOutcome]
  · simp only [hk, if_false, decide_eq_false hk]
    split <;> simp [hs]

/-- An unprocessed fresh row is returned unchanged by `markOne`. -/
theorem markOne_of_not_mem (sample : List Nat) (m : String → MatchOutcome)
    (snames : List String) (k : Nat) (s : BSupplier) (hs : s.company = none)
    (hk : k ∉ sample) :
    markOne sample m snames k s = s := by
  unfold markOne
  rw [if_neg hk]
  split
  · rfl
  · cases s with
    | mk name company => simp_all

/-- Counting filled slots after `batchMark` over a fresh dataset counts
sampled positions. -/
theorem batchMark_countP (sample : List Nat) (m : String → MatchOutcome)
    (snames : List String) :
    ∀ (k : Nat) (ss : List BSupplier), (∀ s ∈ ss, s.company = none) →
      (batchMark sample m snames k ss).countP (fun s => s.company.isSome) =
        (List.range' k ss.length).countP (fun i => decide (i ∈ sample)) := by
  intro k ss
  induction ss generalizing k with
  | nil => intro _; simp [batchMark]
  | cons s rest ih =>
    intro hinit
    have hs : s.company = none := hinit s (by simp)
    have hr := ih (k + 1) (fun x hx => hinit x (List.mem_cons_of_mem s hx))
    simp [batchMark, List.countP_cons, List.range'_succ, hr,
      markOne_isSome sample m snames k s hs]

/-- A nodup list of positions below `n` is counted in full by membership over
`range n`. -/
theorem countP_range_mem (sample : List Nat) (n : Nat) (hnd : sample.Nodup)
    (hlt : ∀ i ∈ sample, i < n) :
    (List.range n).countP (fun i => decide (i ∈ sample)) = sample.length := by
  rw [List.countP_eq_length_filter]
  have hperm : List.Perm ((List.range n).filter (fun i => decide (i ∈ sample))) sample := by
    refine (List.perm_ext_iff_of_nodup ((List.nodup_range n).filter _) hnd).2 ?_
    intro a
    simp only [List.mem_filter, List.mem_range, decide_eq_true_eq]
    exact ⟨fun h => h.2, fun h => ⟨hlt a h, h⟩⟩
  exact hperm.length_eq

/-- C5: on a dataset of more than 40 fresh rows, `matchSuppliersWithGLEIF`
queries exactly the 40 rows at the sampled positions (an arbitrary nodup
40-element set of in-range positions, standing for whatever the random
shuffle selected): exactly 40 rows end attempted (company written, `Matched`
or `NoMatch`), and pointwise a sampled row receives its match outcome while
every excluded row is returned unchanged in the `NotAttempted` state
(`company` undefined). -/
theorem claim_C5 (ss : List BSupplier) (sample : List Nat) (m : String → MatchOutcome)
    (hlen : 40 < ss.length) (hnd : sample.Nodup) (hcard : sample.length = 40)
    (hmem : ∀ i ∈ sample, i < ss.length)
    (hinit : ∀ s ∈ ss, s.company = none) :
    (matchSuppliersWithGLEIF ss sample m).countP (fun s => s.company.isSome) = 40 ∧
    (∀ (i : Nat) (s : BSupplier), ss.get? i = some s →
      (matchSuppliersWithGLEIF ss sample m).get? i =
        some (if i ∈ sample then applyOutcome s (m s.name) else s)) := by
  have hbatch : matchSuppliersWithGLEIF ss sample m =
      batchMark sample m (sampledNames ss sample) 0 ss := by
    unfold matchSuppliersWithGLEIF
    rw [if_pos hlen]
  constructor
  · rw [hbatch, batchMark_countP sample m _ 0 ss hinit, ← List.range_eq_range',
      countP_range_mem sample ss.length hnd hmem, hcard]
  · intro i s hget
    rw [hbatch, batchMark_get? sample m _ 0 i ss, hget]
    by_cases hi : i ∈ sample
    · simp [markOne, hi, if_pos hi]
    · rw [if_neg hi, Option.map_some']
      rw [markOne_of_not_mem sample m _ (0 + i) s (hinit s (List.get?_mem hget))
        (by simpa using hi)]

/-- C5 witness: a 41-row fresh dataset with the 40 positions 1..40 sampled
(position 0 excluded, so the exclusion is not a trailing suffix): exactly 40
rows end attempted and row 0 stays `NotAttempted`. -/
theorem claim_C5_witness :
    (matchSuppliersWithGLEIF c5Dataset c5Sample noMatchMatcher).countP
      (fun s => s.company.isSome) = 40 ∧
    (matchSuppliersWithGLEIF c5Dataset c5Sample noMatchMatcher).get? 0 =
      some { name := "n0", company := none } := by
  have h := claim_C5 c5Dataset c5Sample noMatchMatcher (by decide) (by decide)
    (by decide) (by decide)
    (by intro s hs
        simp only [c5Dataset, List.mem_map] at hs
        obtain ⟨i, _, rfl⟩ := hs
        rfl)
  refine ⟨h.1, ?_⟩
  have h0 := h.2 0 { name := "n0", company := none } rfl
  rw [h0, if_neg (by decide)]

/-! ## C9 -/

/-- C9, counterexample: a single-name batch whose query throws awaits no
throttle delay at all (the `await setTimeout(250)` sits at the end of the
`try` block and the `catch` path skips it), so the total throttle delay is 0,
strictly below names × 250 ms — refuting the claim that the delay is awaited
after every processed name whether it succeeded, found no match, or
failed. -/
theorem claim_C9_counterexample :
    matchBatchDelay oneSupplierBatch [] throwAllMatcher = 0 ∧
    (processedNames oneSupplierBatch []).length * 250 = 250 ∧
    matchBatchDelay oneSupplierBatch [] throwAllMatcher <
      (processedNames oneSupplierBatch []).length * 250 := by
  refine ⟨rfl, rfl, ?_⟩
  decide

/-- Accumulated throttle delay of the sequential loop equals 250 ms per
non-throwing iteration. -/
theorem batchElapsedDelay_foldl (m : String → MatchOutcome) :
    ∀ (names : List String) (a : Nat),
      names.foldl (fun t n => t + delayAfter (m n)) a =
        a + 250 * names.countP (fun n => !(threwOn m n)) := by
  intro names
  induction names with
  | nil => intro a; simp
  | cons n rest ih =>
    intro a
    rw [List.foldl_cons, ih, List.countP_cons]
    cases hmn : m n <;> simp [delayAfter, threwOn, hmn] <;> omega

/-- C9, amended: the batch loop is sequential and awaits the fixed 250 ms
delay after each processed name whose iteration did not throw; the total
throttle delay is therefore exactly 250 ms times the number of non-throwing
names (so it is at least N × 250 ms only when no name's processing threw). -/
theorem claim_C9 (ss : List BSupplier) (sample : List Nat)
    (m : String → MatchOutcome) :
    matchBatchDelay ss sample m =
      250 * ((processedNames ss sample).countP fun n => !(threwOn m n)) := by
  unfold matchBatchDelay batchElapsedDelay
  rw [batchElapsedDelay_foldl m (processedNames ss sample) 0]
  omega

/-! ## C10 -/

/-- C10: a `refetchSupplier` call for a name already in the pending set
returns immediately with no fetch and no mutation; otherwise the name is in
the pending set for the whole in-flight phase — so any concurrent retry for
the same name (including a different row with the same name) is a no-op —
and the name is removed again when the retry finishes, on the success path
and the error path alike. -/
theorem claim_C10 (f : String → Except JsErr JsVal) (pending : List String)
    (s : RSupplier) :
    (pending.contains s.name = true →
      refetchSupplier f pending s =
        { fetched := false, supplier := s, pendingDuring := pending,
          pendingAfter := pending }) ∧
    (pending.contains s.name = false →
      (refetchSupplier f pending s).fetched = true ∧
      (refetchSupplier f pending s).pendingDuring.contains s.name = true ∧
      (refetchSupplier f pending s).pendingAfter = pending ∧
      (refetchSupplier f pending s).pendingAfter.contains s.name = false ∧
      (∀ (g : String → Except JsErr JsVal) (s2 : RSupplier), s2.name = s.name →
        refetchSupplier g (refetchSupplier f pending s).pendingDuring s2 =
          { fetched := false, supplier := s2,
            pendingDuring := (refetchSupplier f pending s).pendingDuring,
            pendingAfter := (refetchSupplier f pending s).pendingDuring })) := by
  constructor
  · intro h
    have hmem : s.name ∈ pending := by simpa using h
    simp [refetchSupplier, hmem]
  · intro h
    have hmem : s.name ∉ pending := by simpa using h
    have hd : (refetchSupplier f pending s).pendingDuring = s.name :: pending := by
      simp [refetchSupplier, hmem]
    have ha : (refetchSupplier f pending s).pendingAfter = pending := by
      simp [refetchSupplier, hmem]
    refine ⟨by simp [refetchSupplier, hmem], ?_, ha, ?_, ?_⟩
    · rw [hd]
      simp
    · rw [ha]
      exact h
    · intro g s2 hn
      rw [hd]
      have hc : s2.name ∈ s.name :: pending := by simp [hn]
      simp [refetchSupplier, hc]

/-- C10 witness: the theorem evaluated with a concrete pending name (the call
is a no-op) and with an empty pending set (the name is gone after the
retry). -/
theorem claim_C10_witness :
    refetchSupplier (fun _ => .error .typeError) ["ACME"]
        { name := "ACME", company := none } =
      { fetched := false, supplier := { name := "ACME", company := none },
        pendingDuring := ["ACME"], pendingAfter := ["ACME"] } ∧
    (refetchSupplier (fun _ => .error .typeError) []
        { name := "ACME", company := none }).pendingAfter.contains "ACME" = false :=
  ⟨(claim_C10 (fun _ => .error .typeError) ["ACME"]
      { name := "ACME", company := none }).1 rfl,
   ((claim_C10 (fun _ => .error .typeError) []
      { name := "ACME", company := none }).2 rfl).2.2.2.1⟩

end FuzzySupplier
